import Mathlib

/-!
Shallow embedding of the CyberpunkVR plugin (Cyberpunk2077-VR-OpenSource).

Machine floats from the C++ source are modelled as exact rationals (`ℚ`);
pointers and OpenXR/D3D12 handles are modelled as nullability booleans;
results of external runtime calls (OpenXR, D3D12) are passed in as
explicit oracle inputs; atomics become plain state fields since each
modelled operation is a single sequential body.
-/

/- §1 Configuration state: namespace VRConfig in ThreadSafe.hpp
   (updated revision, src/unnamed/part_003).  Each C++ field is a
   process-wide atomic; modelled as a record passed explicitly. -/

structure VRConfig where
  /-- IPD in meters (default 64mm): `g_ipd{0.064f}` -/
  ipd : ℚ := 0.064
  /-- World scale multiplier: `g_worldScale{1.0f}` -/
  worldScale : ℚ := 1
  /-- Enable VR rendering: `g_vrEnabled{true}` -/
  vrEnabled : Bool := true
  /-- Enable decoupled aiming: `g_decoupledAiming{true}` -/
  decoupledAiming : Bool := true
  /-- Aim smoothing factor: `g_aimSmoothing{0.5f}` -/
  aimSmoothing : ℚ := 0.5
  /-- GPU wait timeout in ms: `g_gpuWaitTimeout{5000}` -/
  gpuWaitTimeout : ℕ := 5000
deriving DecidableEq

/- §2 Settings interface: VRSettings.cpp. -/

/-- VRSettings.cpp lines 34-53, `Native_SetIPD`: converts the incoming
millimeter value to meters, clamps to [0.050, 0.080] m, and stores it via
`VRConfig::SetIPD`. -/
def Native_SetIPD (ipdMM : ℚ) (cfg : VRConfig) : VRConfig :=
  let ipdMeters := ipdMM / 1000
  let ipdMeters := if ipdMeters < 0.050 then 0.050 else ipdMeters
  let ipdMeters := if ipdMeters > 0.080 then 0.080 else ipdMeters
  { cfg with ipd := ipdMeters }

/-- VRSettings.cpp lines 56-65, `Native_GetIPD`: reports the stored
meters value converted to millimeters (`VRConfig::GetIPD() * 1000.0f`). -/
def Native_GetIPD (cfg : VRConfig) : ℚ :=
  cfg.ipd * 1000

/- §3 Session state machine: VRSystem.cpp. -/

/-- VRSystem.cpp lines 51-62: the `SessionState` enum stored in
`m_sessionState`. -/
inductive SessionState where
  | Unknown
  | Idle
  | Ready
  | Synchronized
  | Visible
  | Focused
  | Stopping
  | LossPending
  | Exiting
deriving DecidableEq, Repr

/-- The `XrSessionState` values a session-state-changed event can carry;
`XrUnknown` stands for any value hitting the `default:` branch of the
handler. -/
inductive XrSessionEvent where
  | XrIdle
  | XrReady
  | XrSynchronized
  | XrVisible
  | XrFocused
  | XrStopping
  | XrLossPending
  | XrExiting
  | XrUnknown
deriving DecidableEq, Repr

/-- VRSystem.cpp lines 693-759, `Impl::HandleSessionStateChange`: each
recognised runtime state is stored into `m_sessionState`; the `default`
branch leaves the stored state unchanged.  (The side calls to
`xrBeginSession` on READY and `xrEndSession` on STOPPING do not touch the
modelled state.) -/
def HandleSessionStateChange (newState : XrSessionEvent) (s : SessionState) : SessionState :=
  match newState with
  | .XrIdle => .Idle
  | .XrReady => .Ready
  | .XrSynchronized => .Synchronized
  | .XrVisible => .Visible
  | .XrFocused => .Focused
  | .XrStopping => .Stopping
  | .XrLossPending => .LossPending
  | .XrExiting => .Exiting
  | .XrUnknown => s

/-- VRSystem.cpp lines 761-767, `Impl::IsSessionRunning`. -/
def IsSessionRunning (s : SessionState) : Bool :=
  s == .Synchronized || s == .Visible || s == .Focused

/-- Drain the event queue as in the `while (xrPollEvent...)` loop of
`VRSystem::Update` (lines 898-908): session-state-changed events are
applied in order through `HandleSessionStateChange`. -/
def drainEvents (events : List XrSessionEvent) (s : SessionState) : SessionState :=
  events.foldl (fun st e => HandleSessionStateChange e st) s

/- §4 Coordinate conversion: VRSystem.cpp lines 30-48. -/

structure Vec3 where
  x : ℚ
  y : ℚ
  z : ℚ
deriving DecidableEq, Repr

structure Quat where
  x : ℚ
  y : ℚ
  z : ℚ
  w : ℚ
deriving DecidableEq, Repr

/-- VRSystem.cpp lines 32-38, `CoordinateConversion::OpenXRToRED`:
`redX = oxrX; redY = -oxrZ; redZ = oxrY;`. -/
def OpenXRToRED (v : Vec3) : Vec3 :=
  ⟨v.x, -v.z, v.y⟩

/-- VRSystem.cpp lines 40-47, `CoordinateConversion::OpenXRQuatToRED`:
`redI = oxrX; redJ = -oxrZ; redK = oxrY; redR = oxrW;`. -/
def OpenXRQuatToRED (q : Quat) : Quat :=
  ⟨q.x, -q.z, q.y, q.w⟩

/-- Modelled from the spec: the source ships only the runtime-to-host
direction (`CoordinateConversion` has no RED-to-OpenXR function), while
the spec describes a "pure function set mapping a right-handed, Y-up
tracking pose to the host's left-handed, Z-up convention and back;
stateless".  This is the host-to-runtime direction, the inverse of the
axis permutation of `OpenXRToRED`: `oxrX = redX; oxrY = redZ;
oxrZ = -redY;`. -/
def REDToOpenXR (v : Vec3) : Vec3 :=
  ⟨v.x, v.z, -v.y⟩

/-- Modelled from the spec: host-to-runtime quaternion conversion, the
inverse component permutation of `OpenXRQuatToRED` (the source has no
RED-to-OpenXR quaternion function). -/
def REDQuatToOpenXR (q : Quat) : Quat :=
  ⟨q.x, q.z, -q.y, q.w⟩

theorem openXRToRED_leftInv (v : Vec3) : OpenXRToRED (REDToOpenXR v) = v := by
  simp [OpenXRToRED, REDToOpenXR]

theorem openXRQuatToRED_leftInv (q : Quat) : OpenXRQuatToRED (REDQuatToOpenXR q) = q := by
  simp [OpenXRQuatToRED, REDQuatToOpenXR]

/- §5 VR Session Manager per-frame operations: VRSystem.cpp
   `VRSystem::Update` (lines 889-966) and `VRSystem::SubmitFrame`
   (lines 980-1048).  The mutable members of `VRSystem::Impl` touched by
   these two functions form `VRState`; results of the OpenXR calls are
   oracle inputs; the OpenXR calls actually issued are recorded in an
   effects record so that "no-op" claims are statable. -/

/-- An OpenXR pose (`XrPosef`): position plus orientation, in runtime
(OpenXR) coordinates. -/
structure XrPose where
  pos : Vec3
  ori : Quat
deriving DecidableEq, Repr

/-- The fields of `XrFrameState` the code reads: `predictedDisplayTime`
and `shouldRender`. -/
structure FrameStateRec where
  predictedDisplayTime : ℤ
  shouldRender : Bool
deriving DecidableEq, Repr

/-- The mutable `VRSystem::Impl` members read or written by `Update` and
`SubmitFrame`: handle nullability for `m_session` and the per-eye
`m_swapchains[i].handle`, the `m_sessionReady` and `m_frameInProgress`
atomic flags, `m_sessionState`, `m_frameState`, and the two view poses in
`m_views` (left = `.1`, right = `.2`). -/
structure VRState where
  sessionNonNull : Bool
  sessionReady : Bool
  sessionState : SessionState
  frameInProgress : Bool
  frameState : FrameStateRec
  views : XrPose × XrPose
  swapchainNonNull : Bool × Bool
deriving DecidableEq, Repr

/-- Oracle outcomes of the runtime calls made by `VRSystem::Update`:
the drained event queue, the result and output of `xrWaitFrame`, the
result of `xrBeginFrame`, and the result and output of `xrLocateViews`. -/
structure UpdateRuntime where
  events : List XrSessionEvent
  waitFrameOk : Bool
  newFrameState : FrameStateRec
  beginFrameOk : Bool
  locateOk : Bool
  locatedViews : XrPose × XrPose
deriving DecidableEq, Repr

/-- Count of frame-obtaining OpenXR calls `Update` actually issued:
`xrWaitFrame`, `xrBeginFrame`, `xrLocateViews`. -/
structure UpdateEffects where
  waitFrameCalls : ℕ
  beginFrameCalls : ℕ
  locateCalls : ℕ
deriving DecidableEq, Repr

/-- VRSystem.cpp lines 889-966, `VRSystem::Update`: returns the new
state, the head pose produced (`some` iff the C++ function returns
`true`, carrying `outX..outQW`), and the calls issued.  Control flow:
null-session / not-ready guard; drain events; running guard;
`xrWaitFrame` (writing `m_frameState` on success); `xrBeginFrame`; set
`m_frameInProgress`; `xrLocateViews` (writing `m_views` on success) and
conversion of view 0's pose to RED space.  (The controller-action sync
between wait and the wait-failure check touches only controller state,
which is outside this record.) -/
def VRSystem.Update (s : VRState) (rt : UpdateRuntime) :
    VRState × Option XrPose × UpdateEffects :=
  if !s.sessionNonNull || !s.sessionReady then
    (s, none, ⟨0, 0, 0⟩)
  else
    let s := { s with sessionState := drainEvents rt.events s.sessionState }
    if !IsSessionRunning s.sessionState then
      (s, none, ⟨0, 0, 0⟩)
    else
      let s := if rt.waitFrameOk then { s with frameState := rt.newFrameState } else s
      if !rt.waitFrameOk then
        (s, none, ⟨1, 0, 0⟩)
      else if !rt.beginFrameOk then
        (s, none, ⟨1, 1, 0⟩)
      else
        let s := { s with frameInProgress := true }
        if rt.locateOk then
          let s := { s with views := rt.locatedViews }
          (s, some ⟨OpenXRToRED rt.locatedViews.1.pos,
                    OpenXRQuatToRED rt.locatedViews.1.ori⟩, ⟨1, 1, 1⟩)
        else
          (s, none, ⟨1, 1, 1⟩)

/-- Oracle outcomes of the runtime calls made by `VRSystem::SubmitFrame`:
the results of `xrAcquireSwapchainImage` and `xrWaitSwapchainImage`. -/
structure SubmitRuntime where
  acquireOk : Bool
  imageWaitOk : Bool
deriving DecidableEq, Repr

/-- The externally visible actions `SubmitFrame` performed: counts of
`xrAcquireSwapchainImage`, `CopyTexture`, `xrReleaseSwapchainImage` and
`xrEndFrame` calls, plus the view poses handed to `xrEndFrame` when it
was called. -/
structure SubmitEffects where
  acquireCalls : ℕ
  copyCalls : ℕ
  releaseCalls : ℕ
  endFrameCalls : ℕ
  endFrameViews : Option (XrPose × XrPose)
deriving DecidableEq, Repr

/-- The effects record of a `SubmitFrame` call that performed nothing. -/
def noSubmitEffects : SubmitEffects :=
  ⟨0, 0, 0, 0, none⟩

/-- VRSystem.cpp lines 980-1048, `VRSystem::SubmitFrame`: not-ready /
not-running guard; eye index selection; null swapchain-handle / null
texture guard; acquire; image wait; `CopyTexture` and release; and the
end-frame block, entered only when `!isLeftEye && m_frameInProgress`,
which builds the projection views from the stored `m_views` poses, calls
`xrEndFrame`, and clears `m_frameInProgress`. -/
def VRSystem.SubmitFrame (s : VRState) (gameTextureNonNull : Bool) (isLeftEye : Bool)
    (rt : SubmitRuntime) : VRState × SubmitEffects :=
  if !s.sessionReady || !IsSessionRunning s.sessionState then
    (s, noSubmitEffects)
  else
    let handleNonNull := if isLeftEye then s.swapchainNonNull.1 else s.swapchainNonNull.2
    if !handleNonNull || !gameTextureNonNull then
      (s, noSubmitEffects)
    else if !rt.acquireOk then
      (s, { noSubmitEffects with acquireCalls := 1 })
    else if !rt.imageWaitOk then
      (s, { noSubmitEffects with acquireCalls := 1 })
    else
      if !isLeftEye && s.frameInProgress then
        ({ s with frameInProgress := false },
         ⟨1, 1, 1, 1, some s.views⟩)
      else
        (s, ⟨1, 1, 1, 0, none⟩)

/- §6 Frame parity counters.  Both the Presentation Hook and the Camera
   Override derive eye parity from their own `ThreadSafe::Counter`
   (a `std::atomic<uint64_t>` starting at 0) via `fetch_add(1)`, which
   returns the pre-increment value. -/

/-- `std::atomic::fetch_add(1)`: returns the old value, stores old + 1. -/
def ThreadSafe.fetch_add (c : ℕ) : ℕ × ℕ :=
  (c, c + 1)

/-- Value of `D3D12Hook::s_frameCount` (initialised `{0}`) after `n`
executions of the submission block in `Hook_Present`. -/
def D3D12Hook.frameCounterAfter : ℕ → ℕ
  | 0 => 0
  | n + 1 => (ThreadSafe.fetch_add (D3D12Hook.frameCounterAfter n)).2

/-- D3D12Hook.cpp line 137: the `frame` value used by the (0-indexed)
`n`-th submission, `s_frameCount.fetch_add(1)`. -/
def D3D12Hook.frameValueAt (n : ℕ) : ℕ :=
  (ThreadSafe.fetch_add (D3D12Hook.frameCounterAfter n)).1

/-- D3D12Hook.cpp line 138: `bool isLeftEye = (frame % 2) == 0;`. -/
def D3D12Hook.isLeftEye (frame : ℕ) : Bool :=
  frame % 2 == 0

/-- Value of the Camera Override's static `frameCount` counter
(`ThreadSafe::Counter frameCount{0}`, src/unnamed/part_002 line 247)
after `n` executions of the pose-override block in `OnCameraUpdate`. -/
def CameraHook.frameCounterAfter : ℕ → ℕ
  | 0 => 0
  | n + 1 => (ThreadSafe.fetch_add (CameraHook.frameCounterAfter n)).2

/-- src/unnamed/part_002 line 248: the `frame` value used by the
(0-indexed) `n`-th camera override, `frameCount.fetch_add(1)`. -/
def CameraHook.frameValueAt (n : ℕ) : ℕ :=
  (ThreadSafe.fetch_add (CameraHook.frameCounterAfter n)).1

/-- src/unnamed/part_002 lines 259-264: the lateral eye offset,
`-(ipd/2)` when `frame % 2 == 0` (left eye), `+(ipd/2)` otherwise. -/
def CameraHook.eyeOffsetX (frame : ℕ) (ipd : ℚ) : ℚ :=
  if frame % 2 == 0 then -(ipd / 2) else ipd / 2

/- §7 Camera Override pose transform: src/unnamed/part_002 lines
   237-278, `CameraHook::OnCameraUpdate`, the block guarded by a
   successful `g_vrSystem->Update(...)`. -/

/-- The fields of the host `WorldTransform` the override writes:
`Position` (from a `Vector4`) and `Orientation` (i, j, k, r). -/
structure WorldTransform where
  posX : ℚ
  posY : ℚ
  posZ : ℚ
  oriI : ℚ
  oriJ : ℚ
  oriK : ℚ
  oriR : ℚ
deriving DecidableEq, Repr

/-- src/unnamed/part_002 lines 246-277: given the pose returned by
`Update` and this call's `frame` counter value, read
`VRConfig::GetIPD()` and `VRConfig::GetWorldScale()`, scale the position
by the world scale, add the alternating half-IPD lateral offset to `x`,
and write position and orientation into the transform. -/
def CameraHook.applyVRPose (cfg : VRConfig) (frame : ℕ)
    (x y z qx qy qz qw : ℚ) : WorldTransform :=
  let ipd := cfg.ipd
  let worldScale := cfg.worldScale
  let x := x * worldScale
  let y := y * worldScale
  let z := z * worldScale
  let offsetX := CameraHook.eyeOffsetX frame ipd
  ⟨x + offsetX, y, z, qx, qy, qz, qw⟩

/- §8 Input Interception: InputHook.cpp (updated revision, lines
   91-278 of src/src/InputHook.cpp), `Hook_XInputGetState`. -/

/-- The fields of `VRHandPose` the input hook reads: aim angles and the
validity flag (ThreadSafe.hpp updated revision). -/
structure VRHandPose where
  yaw : ℚ := 0
  pitch : ℚ := 0
  valid : Bool := false
deriving DecidableEq, Repr

/-- `VRControllerState` (ThreadSafe.hpp updated revision): the fields
`Hook_XInputGetState` reads.  `buttons` is the XInput-compatible
bitmask. -/
structure VRControllerState where
  buttons : ℕ := 0
  leftTrigger : ℚ := 0
  rightTrigger : ℚ := 0
  leftThumbX : ℚ := 0
  leftThumbY : ℚ := 0
  rightThumbX : ℚ := 0
  rightThumbY : ℚ := 0
  leftGrip : ℚ := 0
  rightGrip : ℚ := 0
  leftHand : VRHandPose := {}
  rightHand : VRHandPose := {}
deriving DecidableEq, Repr

/-- `VRControllerState::BUTTON_RIGHT_THUMB = 0x0080`. -/
def VRControllerState.BUTTON_RIGHT_THUMB : ℕ := 0x0080

/-- `XINPUT_GAMEPAD`: buttons bitmask, byte triggers, short thumbstick
axes. -/
structure XINPUT_GAMEPAD where
  wButtons : ℕ := 0
  bLeftTrigger : ℤ := 0
  bRightTrigger : ℤ := 0
  sThumbLX : ℤ := 0
  sThumbLY : ℤ := 0
  sThumbRX : ℤ := 0
  sThumbRY : ℤ := 0
deriving DecidableEq, Repr

/-- `XINPUT_STATE`: packet number plus gamepad. -/
structure XINPUT_STATE where
  dwPacketNumber : ℕ := 0
  Gamepad : XINPUT_GAMEPAD := {}
deriving DecidableEq, Repr

/-- Truncation toward zero, the behaviour of `static_cast` from a
floating value to an integer type. -/
def truncToInt (q : ℚ) : ℤ :=
  if 0 ≤ q then ⌊q⌋ else -⌊-q⌋

/-- InputHook.cpp lines 119-127, `ApplyDeadzone` (default deadzone
0.15): zero below the deadzone, otherwise remapped from
[deadzone, 1] to [0, 1] with the original sign. -/
def ApplyDeadzone (value : ℚ) : ℚ :=
  let deadzone : ℚ := 0.15
  if |value| < deadzone then 0
  else
    let sign : ℚ := if value > 0 then 1 else -1
    sign * ((|value| - deadzone) / (1 - deadzone))

/-- InputHook.cpp lines 130-137, `FloatToShort`: clamp to [-1, 1], then
scale by 32767 for non-negative values and 32768 for negative values,
truncating toward zero. -/
def FloatToShort (value : ℚ) : ℤ :=
  let value := max (-1) (min 1 value)
  if 0 ≤ value then truncToInt (value * 32767)
  else truncToInt (value * 32768)

/-- InputHook.cpp lines 140-144, `FloatToByte`: clamp to [0, 1], scale
by 255, truncating toward zero. -/
def FloatToByte (value : ℚ) : ℤ :=
  let value := max 0 (min 1 value)
  truncToInt (value * 255)

/-- InputHook.cpp lines 154-158, `SmoothValue`:
`current + (target - current) * (1 - smoothing)`, or `target` when
smoothing is non-positive. -/
def SmoothValue (current target smoothing : ℚ) : ℚ :=
  if smoothing ≤ 0 then target
  else current + (target - current) * (1 - smoothing)

/-- The file-static smoothing state of InputHook.cpp lines 147-151:
`s_lastAimYaw`, `s_lastAimPitch`, `s_baseYaw`, `s_basePitch`,
`s_aimInitialized`, together with the static `lastVRButtons` of line
268. -/
structure InputStatics where
  lastAimYaw : ℚ := 0
  lastAimPitch : ℚ := 0
  baseYaw : ℚ := 0
  basePitch : ℚ := 0
  aimInitialized : Bool := false
  lastVRButtons : ℕ := 0
deriving DecidableEq, Repr

/-- InputHook.cpp lines 212-251: the decoupled-aiming branch of
`Hook_XInputGetState`.  Initialises the aim baseline on the first valid
reading, smooths the relative yaw/pitch, overrides the right thumbstick
with the clamped aim delta, and recenters the baseline on a right
thumbstick click. -/
def InputHook.decoupledAim (cfg : VRConfig) (statics : InputStatics)
    (vr : VRControllerState) (g : XINPUT_GAMEPAD) :
    XINPUT_GAMEPAD × InputStatics :=
  let statics :=
    if !statics.aimInitialized then
      { statics with baseYaw := vr.rightHand.yaw,
                     basePitch := vr.rightHand.pitch,
                     lastAimYaw := 0, lastAimPitch := 0,
                     aimInitialized := true }
    else statics
  let relativeYaw := vr.rightHand.yaw - statics.baseYaw
  let relativePitch := vr.rightHand.pitch - statics.basePitch
  let smoothing := cfg.aimSmoothing
  let statics := { statics with
    lastAimYaw := SmoothValue statics.lastAimYaw relativeYaw smoothing,
    lastAimPitch := SmoothValue statics.lastAimPitch relativePitch smoothing }
  let aimSensitivity : ℚ := 45
  let aimX := max (-1) (min 1 (statics.lastAimYaw / aimSensitivity))
  let aimY := max (-1) (min 1 (-statics.lastAimPitch / aimSensitivity))
  let g := { g with sThumbRX := FloatToShort aimX,
                    sThumbRY := FloatToShort aimY }
  let statics :=
    if vr.buttons &&& VRControllerState.BUTTON_RIGHT_THUMB ≠ 0 then
      { statics with baseYaw := vr.rightHand.yaw,
                     basePitch := vr.rightHand.pitch,
                     lastAimYaw := 0, lastAimPitch := 0 }
    else statics
  (g, statics)

/-- InputHook.cpp lines 252-265: the standard (non-decoupled) right
thumbstick branch of `Hook_XInputGetState`: magnitude-wins merge of the
post-deadzone VR right stick, and reset of the aim-initialised flag. -/
def InputHook.standardAim (statics : InputStatics)
    (vr : VRControllerState) (g : XINPUT_GAMEPAD) :
    XINPUT_GAMEPAD × InputStatics :=
  let rightX := ApplyDeadzone vr.rightThumbX
  let rightY := ApplyDeadzone vr.rightThumbY
  let g := if |rightX| > |(g.sThumbRX : ℚ) / 32767| then
             { g with sThumbRX := FloatToShort rightX } else g
  let g := if |rightY| > |(g.sThumbRY : ℚ) / 32767| then
             { g with sThumbRY := FloatToShort rightY } else g
  (g, { statics with aimInitialized := false })

/-- InputHook.cpp lines 161-278, `Hook_XInputGetState`, modelled at one
invocation.  Oracle inputs: `nativeOk` is whether the forwarded real
call returned `ERROR_SUCCESS` and `nativeState` its output buffer;
`vrAvailable` is the result of `g_vrSystem->GetControllerState` and `vr`
the sample it produced (a null `g_vrSystem`, like an unavailable sample,
leaves the native state untouched and is subsumed by
`vrAvailable = false`).  Returns (call succeeded, output state, new
statics). -/
def Hook_XInputGetState (cfg : VRConfig) (statics : InputStatics)
    (dwUserIndex : ℕ) (nativeOk : Bool) (nativeState : XINPUT_STATE)
    (vrAvailable : Bool) (vr : VRControllerState) :
    Bool × XINPUT_STATE × InputStatics :=
  -- 2. If VR is disabled, just return the original result
  if !cfg.vrEnabled then
    (nativeOk, nativeState, statics)
  -- 3. Inject VR Input (Player 1 only)
  else if dwUserIndex == 0 && vrAvailable then
    -- If original controller is not connected, initialize state
    let st := if !nativeOk then ({} : XINPUT_STATE) else nativeState
    let g := st.Gamepad
    -- Map VR buttons (bitwise OR)
    let g := { g with wButtons := g.wButtons ||| vr.buttons }
    -- Map VR triggers (max)
    let g := { g with
      bLeftTrigger := max g.bLeftTrigger (FloatToByte vr.leftTrigger),
      bRightTrigger := max g.bRightTrigger (FloatToByte vr.rightTrigger) }
    -- Map VR left thumbstick (magnitude-wins)
    let leftX := ApplyDeadzone vr.leftThumbX
    let leftY := ApplyDeadzone vr.leftThumbY
    let g := if |leftX| > |(g.sThumbLX : ℚ) / 32767| then
               { g with sThumbLX := FloatToShort leftX } else g
    let g := if |leftY| > |(g.sThumbLY : ℚ) / 32767| then
               { g with sThumbLY := FloatToShort leftY } else g
    -- Decoupled aiming: use right hand controller for aim, else
    -- standard magnitude-wins merge on the right stick
    let gs :=
      if cfg.decoupledAiming && vr.rightHand.valid then
        InputHook.decoupledAim cfg statics vr g
      else
        InputHook.standardAim statics vr g
    -- Increment packet number when VR input changes
    let ps :=
      if vr.buttons ≠ gs.2.lastVRButtons then
        (st.dwPacketNumber + 1, { gs.2 with lastVRButtons := vr.buttons })
      else (st.dwPacketNumber, gs.2)
    (true, ⟨ps.1, gs.1⟩, ps.2)
  else
    (nativeOk, nativeState, statics)

/-- InputHook.cpp lines 187-209 restated as a function of the native
state: zero-init when the native call failed is handled at the call
site, so this is the buttons-OR, trigger-max and left-stick
magnitude-merge half of the merge applied to the native gamepad. -/
def mergedLeftHalf (native : XINPUT_STATE) (vr : VRControllerState) : XINPUT_GAMEPAD :=
  let g := native.Gamepad
  let g := { g with wButtons := g.wButtons ||| vr.buttons }
  let g := { g with
    bLeftTrigger := max g.bLeftTrigger (FloatToByte vr.leftTrigger),
    bRightTrigger := max g.bRightTrigger (FloatToByte vr.rightTrigger) }
  let leftX := ApplyDeadzone vr.leftThumbX
  let leftY := ApplyDeadzone vr.leftThumbY
  let g := if |leftX| > |(g.sThumbLX : ℚ) / 32767| then
             { g with sThumbLX := FloatToShort leftX } else g
  let g := if |leftY| > |(g.sThumbLY : ℚ) / 32767| then
             { g with sThumbLY := FloatToShort leftY } else g
  g

theorem mergedLeftHalf_spec (native : XINPUT_STATE) (vr : VRControllerState) :
    (mergedLeftHalf native vr).wButtons = native.Gamepad.wButtons ||| vr.buttons
    ∧ (mergedLeftHalf native vr).bLeftTrigger
        = max native.Gamepad.bLeftTrigger (FloatToByte vr.leftTrigger)
    ∧ (mergedLeftHalf native vr).bRightTrigger
        = max native.Gamepad.bRightTrigger (FloatToByte vr.rightTrigger)
    ∧ (mergedLeftHalf native vr).sThumbLX
        = (if |ApplyDeadzone vr.leftThumbX| > |(native.Gamepad.sThumbLX : ℚ) / 32767|
           then FloatToShort (ApplyDeadzone vr.leftThumbX) else native.Gamepad.sThumbLX)
    ∧ (mergedLeftHalf native vr).sThumbLY
        = (if |ApplyDeadzone vr.leftThumbY| > |(native.Gamepad.sThumbLY : ℚ) / 32767|
           then FloatToShort (ApplyDeadzone vr.leftThumbY) else native.Gamepad.sThumbLY)
    ∧ (mergedLeftHalf native vr).sThumbRX = native.Gamepad.sThumbRX
    ∧ (mergedLeftHalf native vr).sThumbRY = native.Gamepad.sThumbRY := by
  unfold mergedLeftHalf
  refine ⟨?_, ?_, ?_, ?_, ?_, ?_, ?_⟩ <;> dsimp only <;> split_ifs <;> rfl

theorem InputHook.decoupledAim_preserves (cfg : VRConfig) (st : InputStatics)
    (vr : VRControllerState) (g : XINPUT_GAMEPAD) :
    (InputHook.decoupledAim cfg st vr g).1.wButtons = g.wButtons
    ∧ (InputHook.decoupledAim cfg st vr g).1.bLeftTrigger = g.bLeftTrigger
    ∧ (InputHook.decoupledAim cfg st vr g).1.bRightTrigger = g.bRightTrigger
    ∧ (InputHook.decoupledAim cfg st vr g).1.sThumbLX = g.sThumbLX
    ∧ (InputHook.decoupledAim cfg st vr g).1.sThumbLY = g.sThumbLY :=
  ⟨rfl, rfl, rfl, rfl, rfl⟩

theorem InputHook.standardAim_eq (st : InputStatics)
    (vr : VRControllerState) (g : XINPUT_GAMEPAD) :
    (InputHook.standardAim st vr g).1.wButtons = g.wButtons
    ∧ (InputHook.standardAim st vr g).1.bLeftTrigger = g.bLeftTrigger
    ∧ (InputHook.standardAim st vr g).1.bRightTrigger = g.bRightTrigger
    ∧ (InputHook.standardAim st vr g).1.sThumbLX = g.sThumbLX
    ∧ (InputHook.standardAim st vr g).1.sThumbLY = g.sThumbLY
    ∧ (InputHook.standardAim st vr g).1.sThumbRX
        = (if |ApplyDeadzone vr.rightThumbX| > |(g.sThumbRX : ℚ) / 32767|
           then FloatToShort (ApplyDeadzone vr.rightThumbX) else g.sThumbRX)
    ∧ (InputHook.standardAim st vr g).1.sThumbRY
        = (if |ApplyDeadzone vr.rightThumbY| > |(g.sThumbRY : ℚ) / 32767|
           then FloatToShort (ApplyDeadzone vr.rightThumbY) else g.sThumbRY) := by
  unfold InputHook.standardAim
  refine ⟨?_, ?_, ?_, ?_, ?_, ?_, ?_⟩ <;> dsimp only <;> split_ifs <;> rfl

/-- On the merge path (VR enabled, user 0, VR sample available, native
call successful), the output gamepad is the branch result applied to the
native gamepad with buttons OR'd, triggers max-merged and the left
stick magnitude-merged. -/
theorem Hook_XInputGetState_merge_eq (cfg : VRConfig) (statics : InputStatics)
    (native : XINPUT_STATE) (vr : VRControllerState)
    (hen : cfg.vrEnabled = true) :
    (Hook_XInputGetState cfg statics 0 true native true vr).2.1.Gamepad
      = (if cfg.decoupledAiming && vr.rightHand.valid then
           InputHook.decoupledAim cfg statics vr (mergedLeftHalf native vr)
         else
           InputHook.standardAim statics vr (mergedLeftHalf native vr)).1 := by
  unfold Hook_XInputGetState mergedLeftHalf
  rw [hen]
  dsimp only
  split_ifs <;> try rfl
  all_goals simp_all

/- §9 Helper lemmas shared by the claim theorems. -/

theorem D3D12Hook.presentFrameValueAt_eq (n : ℕ) : D3D12Hook.frameValueAt n = n := by
  induction n with
  | zero => rfl
  | succ n ih =>
      simpa [D3D12Hook.frameValueAt, D3D12Hook.frameCounterAfter,
             ThreadSafe.fetch_add] using ih

theorem CameraHook.cameraFrameValueAt_eq (n : ℕ) : CameraHook.frameValueAt n = n := by
  induction n with
  | zero => rfl
  | succ n ih =>
      simpa [CameraHook.frameValueAt, CameraHook.frameCounterAfter,
             ThreadSafe.fetch_add] using ih

/-- On the all-success path, `Update` applies the drained events, stores
the new frame state, sets the frame-in-progress flag, stores the located
views, and returns view 0's pose converted to RED space. -/
theorem update_success_eq (s : VRState) (rt : UpdateRuntime)
    (hnn : s.sessionNonNull = true) (hrdy : s.sessionReady = true)
    (hrun : IsSessionRunning (drainEvents rt.events s.sessionState) = true)
    (hw : rt.waitFrameOk = true) (hb : rt.beginFrameOk = true) (hl : rt.locateOk = true) :
    VRSystem.Update s rt =
      ({ s with sessionState := drainEvents rt.events s.sessionState,
                frameState := rt.newFrameState,
                frameInProgress := true,
                views := rt.locatedViews },
       some ⟨OpenXRToRED rt.locatedViews.1.pos, OpenXRQuatToRED rt.locatedViews.1.ori⟩,
       ⟨1, 1, 1⟩) := by
  simp [VRSystem.Update, hnn, hrdy, hrun, hw, hb, hl]

/-- When only the view-locate call fails, `Update` still sets the
frame-in-progress flag but keeps the previous views and returns no
pose. -/
theorem update_locateFail_eq (s : VRState) (rt : UpdateRuntime)
    (hnn : s.sessionNonNull = true) (hrdy : s.sessionReady = true)
    (hrun : IsSessionRunning (drainEvents rt.events s.sessionState) = true)
    (hw : rt.waitFrameOk = true) (hb : rt.beginFrameOk = true) (hl : rt.locateOk = false) :
    VRSystem.Update s rt =
      ({ s with sessionState := drainEvents rt.events s.sessionState,
                frameState := rt.newFrameState,
                frameInProgress := true },
       none, ⟨1, 1, 1⟩) := by
  simp [VRSystem.Update, hnn, hrdy, hrun, hw, hb, hl]

/-- A fully successful left-eye submission never reaches the end-frame
block. -/
theorem submit_left_eq (s : VRState) (rt : SubmitRuntime)
    (hrdy : s.sessionReady = true) (hrun : IsSessionRunning s.sessionState = true)
    (hsw : s.swapchainNonNull.1 = true)
    (ha : rt.acquireOk = true) (hiw : rt.imageWaitOk = true) :
    VRSystem.SubmitFrame s true true rt = (s, ⟨1, 1, 1, 0, none⟩) := by
  simp [VRSystem.SubmitFrame, hrdy, hrun, hsw, ha, hiw]

/-- A fully successful right-eye submission with a frame in progress
calls `xrEndFrame` once on the stored views and clears the flag. -/
theorem submit_right_inProgress_eq (s : VRState) (rt : SubmitRuntime)
    (hrdy : s.sessionReady = true) (hrun : IsSessionRunning s.sessionState = true)
    (hsw : s.swapchainNonNull.2 = true)
    (ha : rt.acquireOk = true) (hiw : rt.imageWaitOk = true)
    (hfp : s.frameInProgress = true) :
    VRSystem.SubmitFrame s true false rt =
      ({ s with frameInProgress := false }, ⟨1, 1, 1, 1, some s.views⟩) := by
  simp [VRSystem.SubmitFrame, hrdy, hrun, hsw, ha, hiw, hfp]

/-- A fully successful right-eye submission without a frame in progress
copies but does not call `xrEndFrame`. -/
theorem submit_right_notInProgress_eq (s : VRState) (rt : SubmitRuntime)
    (hrdy : s.sessionReady = true) (hrun : IsSessionRunning s.sessionState = true)
    (hsw : s.swapchainNonNull.2 = true)
    (ha : rt.acquireOk = true) (hiw : rt.imageWaitOk = true)
    (hfp : s.frameInProgress = false) :
    VRSystem.SubmitFrame s true false rt = (s, ⟨1, 1, 1, 0, none⟩) := by
  simp [VRSystem.SubmitFrame, hrdy, hrun, hsw, ha, hiw, hfp]

/-- `SubmitFrame` calls `xrEndFrame` only on a right-eye submission with
the frame-in-progress flag set. -/
theorem submit_endFrame_requires (s : VRState) (tex eye : Bool) (rt : SubmitRuntime)
    (h : 0 < (VRSystem.SubmitFrame s tex eye rt).2.endFrameCalls) :
    eye = false ∧ s.frameInProgress = true := by
  unfold VRSystem.SubmitFrame at h
  cases eye <;> cases hfp : s.frameInProgress <;>
    dsimp only at h <;> simp only [hfp] at h <;>
    split_ifs at h <;> simp_all [noSubmitEffects]

/-- The frame-in-progress flag changes during `SubmitFrame` only when
the end-frame block runs (right eye, flag previously set). -/
theorem submit_flag_change_requires (s : VRState) (tex eye : Bool) (rt : SubmitRuntime)
    (h : (VRSystem.SubmitFrame s tex eye rt).1.frameInProgress ≠ s.frameInProgress) :
    eye = false ∧ (VRSystem.SubmitFrame s tex eye rt).2.endFrameCalls = 1 := by
  unfold VRSystem.SubmitFrame at h ⊢
  cases eye <;> cases hfp : s.frameInProgress <;>
    dsimp only at h ⊢ <;> simp only [hfp] at h ⊢ <;>
    split_ifs at h ⊢ <;> simp_all [noSubmitEffects]

/- §10 Concrete fixtures used by witness theorems. -/

/-- A ready, focused session state with both swapchains created and no
frame in progress. -/
def testVRState : VRState :=
  { sessionNonNull := true, sessionReady := true,
    sessionState := .Focused, frameInProgress := false,
    frameState := ⟨0, true⟩,
    views := (⟨⟨0, 0, 0⟩, ⟨0, 0, 0, 1⟩⟩, ⟨⟨0, 0, 0⟩, ⟨0, 0, 0, 1⟩⟩),
    swapchainNonNull := (true, true) }

/-- A ready session whose stored state is still `Idle`. -/
def testIdleVRState : VRState :=
  { testVRState with sessionState := .Idle }

/-- An all-success `Update` oracle with an empty event queue and a
distinctive located pose. -/
def testUpdateRuntime : UpdateRuntime :=
  { events := [], waitFrameOk := true, newFrameState := ⟨7, true⟩,
    beginFrameOk := true, locateOk := true,
    locatedViews := (⟨⟨1, 2, 3⟩, ⟨0, 0, 0, 1⟩⟩, ⟨⟨4, 5, 6⟩, ⟨0, 0, 0, 1⟩⟩) }

/-- An all-success `SubmitFrame` oracle. -/
def testSubmitRuntime : SubmitRuntime :=
  ⟨true, true⟩

/- §11 The claim theorems. -/

/-- C1: for every frame index `N ≥ 0`, the eye parity the Camera
Override uses for frame `N`'s offset (even: left eye, negative half-IPD
lateral offset) equals the eye parity the Presentation Hook uses for
frame `N`'s texture submission (even: `isLeftEye = true`); both counters
start at 0 and increment monotonically so call `N` observes value `N`. -/
theorem eye_parity_consistent (n : ℕ) (ipd : ℚ) (h : 0 < ipd) :
    D3D12Hook.isLeftEye (D3D12Hook.frameValueAt n)
      = decide (CameraHook.eyeOffsetX (CameraHook.frameValueAt n) ipd < 0)
    ∧ D3D12Hook.frameValueAt n = n
    ∧ CameraHook.frameValueAt n = n
    ∧ (n % 2 = 0 →
        D3D12Hook.isLeftEye (D3D12Hook.frameValueAt n) = true
        ∧ CameraHook.eyeOffsetX (CameraHook.frameValueAt n) ipd = -(ipd / 2)) := by
  have hd := D3D12Hook.presentFrameValueAt_eq n
  have hc := CameraHook.cameraFrameValueAt_eq n
  have hoff : -(ipd / 2) < 0 := by linarith
  have hoff2 : ¬ (ipd / 2 < 0) := by linarith
  refine ⟨?_, hd, hc, ?_⟩
  · rw [hd, hc]
    rcases Nat.mod_two_eq_zero_or_one n with h2 | h2 <;>
      simp [D3D12Hook.isLeftEye, CameraHook.eyeOffsetX, h2, hoff, hoff2]
  · intro h2
    rw [hd, hc]
    simp [D3D12Hook.isLeftEye, CameraHook.eyeOffsetX, h2]

theorem eye_parity_consistent_witness :
    0 < (0.064 : ℚ)
    ∧ (D3D12Hook.isLeftEye (D3D12Hook.frameValueAt 4)
        = decide (CameraHook.eyeOffsetX (CameraHook.frameValueAt 4) 0.064 < 0)
       ∧ D3D12Hook.frameValueAt 4 = 4
       ∧ CameraHook.frameValueAt 4 = 4
       ∧ (4 % 2 = 0 →
           D3D12Hook.isLeftEye (D3D12Hook.frameValueAt 4) = true
           ∧ CameraHook.eyeOffsetX (CameraHook.frameValueAt 4) 0.064 = -(0.064 / 2))) :=
  ⟨by norm_num, eye_parity_consistent 4 0.064 (by norm_num)⟩

/-- C3: `IsSessionRunning` is true exactly in `Synchronized`, `Visible`
and `Focused`, for every state reached by applying any event sequence
through the handler; when it is false, `Update` issues no
wait/begin/locate calls and yields no pose, and `SubmitFrame` performs
nothing and leaves the state untouched.  The last conjunct checks the
spec's example sequence Idle, Ready, Synchronized, Visible, Focused,
Stopping, Exiting. -/
theorem isSessionRunning_characterisation :
    (∀ s : SessionState,
       IsSessionRunning s = true
         ↔ (s = .Synchronized ∨ s = .Visible ∨ s = .Focused))
    ∧ (∀ (init : SessionState) (evs : List XrSessionEvent),
        IsSessionRunning (drainEvents evs init) = true
          ↔ (drainEvents evs init = .Synchronized
             ∨ drainEvents evs init = .Visible
             ∨ drainEvents evs init = .Focused))
    ∧ (∀ (s : VRState) (rt : UpdateRuntime),
        IsSessionRunning (drainEvents rt.events s.sessionState) = false →
        (VRSystem.Update s rt).2.1 = none
        ∧ (VRSystem.Update s rt).2.2 = ⟨0, 0, 0⟩)
    ∧ (∀ (s : VRState) (tex eye : Bool) (rt : SubmitRuntime),
        IsSessionRunning s.sessionState = false →
        VRSystem.SubmitFrame s tex eye rt = (s, noSubmitEffects))
    ∧ (([.XrIdle, .XrReady, .XrSynchronized, .XrVisible, .XrFocused,
         .XrStopping, .XrExiting] : List XrSessionEvent).scanl
          (fun st e => HandleSessionStateChange e st) .Unknown).map IsSessionRunning
        = [false, false, false, true, true, true, false, false] := by
  refine ⟨?_, ?_, ?_, ?_, by decide⟩
  · intro s; cases s <;> simp [IsSessionRunning]
  · intro init evs
    generalize drainEvents evs init = s
    cases s <;> simp [IsSessionRunning]
  · intro s rt hstop
    unfold VRSystem.Update
    split_ifs with h1 h2 h3 h4 <;> simp_all
  · intro s tex eye rt hstop
    unfold VRSystem.SubmitFrame
    simp [hstop]

theorem isSessionRunning_characterisation_witness :
    IsSessionRunning (drainEvents testUpdateRuntime.events testIdleVRState.sessionState) = false
    ∧ (VRSystem.Update testIdleVRState testUpdateRuntime).2.1 = none
    ∧ VRSystem.SubmitFrame testIdleVRState true true testSubmitRuntime
        = (testIdleVRState, noSubmitEffects) :=
  ⟨by decide,
   (isSessionRunning_characterisation.2.2.1 testIdleVRState testUpdateRuntime (by decide)).1,
   isSessionRunning_characterisation.2.2.2.1 testIdleVRState true true testSubmitRuntime
     (by decide)⟩

/-- C4: `Native_SetIPD` stores `clamp(x/1000, 0.050, 0.080)` meters, the
getter reports the stored value times 1000, and the three documented
examples 40 to 50, 90 to 80 and 64 to 64 follow. -/
theorem native_setIPD_clamps :
    (∀ (cfg : VRConfig) (x : ℚ),
       (Native_SetIPD x cfg).ipd = min (max (x / 1000) 0.050) 0.080)
    ∧ (∀ cfg : VRConfig, Native_GetIPD cfg = cfg.ipd * 1000)
    ∧ (∀ cfg : VRConfig,
        Native_GetIPD (Native_SetIPD 40 cfg) = 50
        ∧ Native_GetIPD (Native_SetIPD 90 cfg) = 80
        ∧ Native_GetIPD (Native_SetIPD 64 cfg) = 64) := by
  have hset : ∀ (cfg : VRConfig) (x : ℚ),
      (Native_SetIPD x cfg).ipd = min (max (x / 1000) 0.050) 0.080 := by
    intro cfg x
    unfold Native_SetIPD
    dsimp only
    split_ifs with h1 h2 h3 <;>
      rw [min_def, max_def] <;> split_ifs <;> norm_num <;> linarith
  refine ⟨hset, fun cfg => rfl, fun cfg => ?_⟩
  refine ⟨?_, ?_, ?_⟩ <;>
    · show (Native_SetIPD _ cfg).ipd * 1000 = _
      rw [hset]
      norm_num

/-- C5: on a camera update with a valid pose and VR enabled, the Camera
Override scales the pose position by the configured world scale and adds
a lateral offset of magnitude half the configured IPD whose sign
alternates with frame parity (negative on even frames, positive on odd),
writing the orientation through unchanged; IPD and world scale come from
the `VRConfig` argument, not constants. -/
theorem cameraHook_applies_config (cfg : VRConfig) (frame : ℕ)
    (x y z qx qy qz qw : ℚ) (h : 0 < cfg.ipd) :
    (CameraHook.applyVRPose cfg frame x y z qx qy qz qw).posX
        = x * cfg.worldScale + CameraHook.eyeOffsetX frame cfg.ipd
    ∧ (CameraHook.applyVRPose cfg frame x y z qx qy qz qw).posY = y * cfg.worldScale
    ∧ (CameraHook.applyVRPose cfg frame x y z qx qy qz qw).posZ = z * cfg.worldScale
    ∧ (CameraHook.applyVRPose cfg frame x y z qx qy qz qw).oriI = qx
    ∧ (CameraHook.applyVRPose cfg frame x y z qx qy qz qw).oriJ = qy
    ∧ (CameraHook.applyVRPose cfg frame x y z qx qy qz qw).oriK = qz
    ∧ (CameraHook.applyVRPose cfg frame x y z qx qy qz qw).oriR = qw
    ∧ |CameraHook.eyeOffsetX frame cfg.ipd| = cfg.ipd / 2
    ∧ (frame % 2 = 0 → CameraHook.eyeOffsetX frame cfg.ipd = -(cfg.ipd / 2))
    ∧ (frame % 2 = 1 → CameraHook.eyeOffsetX frame cfg.ipd = cfg.ipd / 2) := by
  refine ⟨rfl, rfl, rfl, rfl, rfl, rfl, rfl, ?_, ?_, ?_⟩
  · unfold CameraHook.eyeOffsetX
    split_ifs with h2
    · rw [abs_neg, abs_of_pos (by linarith)]
    · rw [abs_of_pos (by linarith)]
  · intro h2; simp [CameraHook.eyeOffsetX, h2]
  · intro h2; simp [CameraHook.eyeOffsetX, h2]

theorem cameraHook_applies_config_witness :
    0 < (({ ipd := 0.064, worldScale := 2 } : VRConfig)).ipd
    ∧ (CameraHook.applyVRPose { ipd := 0.064, worldScale := 2 } 2 10 20 30 0 0 0 1).posX
        = 10 * (2 : ℚ) + CameraHook.eyeOffsetX 2 0.064
    ∧ (CameraHook.applyVRPose { ipd := 0.064, worldScale := 2 } 2 10 20 30 0 0 0 1).posY
        = 20 * (2 : ℚ)
    ∧ |CameraHook.eyeOffsetX 2 (0.064 : ℚ)| = 0.064 / 2 :=
  have h := cameraHook_applies_config { ipd := 0.064, worldScale := 2 } 2 10 20 30 0 0 0 1
    (by norm_num)
  ⟨by norm_num, h.1, h.2.1, h.2.2.2.2.2.2.2.1⟩

/-- C9: converting a pose from host (RED) space to runtime (OpenXR)
space and back yields the original pose exactly (hence within any
floating-point epsilon), for every position and quaternion, including
axis-aligned and zero-rotation cases; both converters are pure
stateless functions. -/
theorem pose_roundtrip (p : Vec3) (q : Quat) :
    OpenXRToRED (REDToOpenXR p) = p
    ∧ OpenXRQuatToRED (REDQuatToOpenXR q) = q
    ∧ REDToOpenXR (OpenXRToRED p) = p
    ∧ REDQuatToOpenXR (OpenXRQuatToRED q) = q
    ∧ OpenXRToRED (REDToOpenXR ⟨1, 0, 0⟩) = ⟨1, 0, 0⟩
    ∧ OpenXRQuatToRED (REDQuatToOpenXR ⟨0, 0, 0, 1⟩) = ⟨0, 0, 0, 1⟩ :=
  ⟨openXRToRED_leftInv p, openXRQuatToRED_leftInv q,
   by simp [OpenXRToRED, REDToOpenXR],
   by simp [OpenXRQuatToRED, REDQuatToOpenXR],
   by decide, by decide⟩

/-- C2: for a logical frame of one successful `Update` followed by a
left-eye then a right-eye `SubmitFrame` (all runtime calls succeeding),
`xrEndFrame` is called exactly once — zero times on the left-eye
submission, once on the right-eye submission, which runs with the
frame-in-progress flag set and clears it — and a further right-eye
submission without an intervening `Update` calls `xrEndFrame` zero
times.  In general, `xrEndFrame` runs only on a right-eye submission
with the flag set. -/
theorem submitFrame_endFrame_once
    (s : VRState) (rtU : UpdateRuntime) (rtS : SubmitRuntime)
    (hnn : s.sessionNonNull = true) (hrdy : s.sessionReady = true)
    (hrun : IsSessionRunning (drainEvents rtU.events s.sessionState) = true)
    (hw : rtU.waitFrameOk = true) (hb : rtU.beginFrameOk = true) (hl : rtU.locateOk = true)
    (hsw : s.swapchainNonNull = (true, true))
    (ha : rtS.acquireOk = true) (hiw : rtS.imageWaitOk = true) :
    (VRSystem.SubmitFrame (VRSystem.Update s rtU).1 true true rtS).2.endFrameCalls = 0
    ∧ (VRSystem.SubmitFrame (VRSystem.Update s rtU).1 true true rtS).1.frameInProgress = true
    ∧ (VRSystem.SubmitFrame (VRSystem.SubmitFrame (VRSystem.Update s rtU).1 true true
         rtS).1 true false rtS).2.endFrameCalls = 1
    ∧ (VRSystem.SubmitFrame (VRSystem.SubmitFrame (VRSystem.Update s rtU).1 true true
         rtS).1 true false rtS).1.frameInProgress = false
    ∧ (VRSystem.SubmitFrame (VRSystem.SubmitFrame (VRSystem.SubmitFrame
         (VRSystem.Update s rtU).1 true true rtS).1 true false rtS).1 true false
         rtS).2.endFrameCalls = 0
    ∧ (∀ (s2 : VRState) (tex eye : Bool) (rt2 : SubmitRuntime),
        0 < (VRSystem.SubmitFrame s2 tex eye rt2).2.endFrameCalls →
        eye = false ∧ s2.frameInProgress = true) := by
  have hswL : s.swapchainNonNull.1 = true := by rw [hsw]
  have hswR : s.swapchainNonNull.2 = true := by rw [hsw]
  have hup := update_success_eq s rtU hnn hrdy hrun hw hb hl
  set s1 : VRState :=
    { s with sessionState := drainEvents rtU.events s.sessionState,
             frameState := rtU.newFrameState,
             frameInProgress := true,
             views := rtU.locatedViews } with hs1
  have h1 : (VRSystem.Update s rtU).1 = s1 := by rw [hup]
  have hL : VRSystem.SubmitFrame s1 true true rtS = (s1, ⟨1, 1, 1, 0, none⟩) :=
    submit_left_eq s1 rtS hrdy hrun hswL ha hiw
  have hR : VRSystem.SubmitFrame s1 true false rtS =
      ({ s1 with frameInProgress := false }, ⟨1, 1, 1, 1, some s1.views⟩) :=
    submit_right_inProgress_eq s1 rtS hrdy hrun hswR ha hiw rfl
  have hR2 : VRSystem.SubmitFrame { s1 with frameInProgress := false } true false rtS =
      ({ s1 with frameInProgress := false }, ⟨1, 1, 1, 0, none⟩) :=
    submit_right_notInProgress_eq _ rtS hrdy hrun hswR ha hiw rfl
  rw [h1, hL]
  refine ⟨rfl, rfl, ?_, ?_, ?_, submit_endFrame_requires⟩
  · rw [hR]
  · rw [hR]
  · rw [hR]; dsimp only; rw [hR2]

theorem submitFrame_endFrame_once_witness :
    IsSessionRunning (drainEvents testUpdateRuntime.events testVRState.sessionState) = true
    ∧ (VRSystem.SubmitFrame (VRSystem.Update testVRState testUpdateRuntime).1 true true
         testSubmitRuntime).2.endFrameCalls = 0
    ∧ (VRSystem.SubmitFrame (VRSystem.SubmitFrame
         (VRSystem.Update testVRState testUpdateRuntime).1 true true
         testSubmitRuntime).1 true false testSubmitRuntime).2.endFrameCalls = 1 :=
  have h := submitFrame_endFrame_once testVRState testUpdateRuntime testSubmitRuntime
    rfl rfl (by decide) rfl rfl rfl rfl rfl rfl
  ⟨by decide, h.1, h.2.2.1⟩

/-- C7: `Update` yields no pose when the session is not running after
the event drain, when `xrWaitFrame` fails, or when `xrLocateViews`
fails (each a normal, recoverable return of the total function); on
full success it yields the first view's pose converted from OpenXR
space to RED space. -/
theorem update_failure_modes (s : VRState) (rt : UpdateRuntime) :
    (IsSessionRunning (drainEvents rt.events s.sessionState) = false →
       (VRSystem.Update s rt).2.1 = none)
    ∧ (rt.waitFrameOk = false → (VRSystem.Update s rt).2.1 = none)
    ∧ (rt.locateOk = false → (VRSystem.Update s rt).2.1 = none)
    ∧ (s.sessionNonNull = true → s.sessionReady = true →
       IsSessionRunning (drainEvents rt.events s.sessionState) = true →
       rt.waitFrameOk = true → rt.beginFrameOk = true → rt.locateOk = true →
       (VRSystem.Update s rt).2.1
         = some ⟨OpenXRToRED rt.locatedViews.1.pos,
                 OpenXRQuatToRED rt.locatedViews.1.ori⟩) := by
  refine ⟨?_, ?_, ?_, ?_⟩
  · intro hstop
    unfold VRSystem.Update
    split_ifs with h1 h2 h3 h4 <;> simp_all
  · intro hwf
    unfold VRSystem.Update
    split_ifs <;> simp_all
    all_goals (split_ifs <;> rfl)
  · intro hlf
    unfold VRSystem.Update
    split_ifs <;> simp_all
    all_goals (split_ifs <;> rfl)
  · intro hnn hrdy hrun hw hb hl
    rw [update_success_eq s rt hnn hrdy hrun hw hb hl]

theorem update_failure_modes_witness :
    ((VRSystem.Update testVRState { testUpdateRuntime with waitFrameOk := false }).2.1 = none)
    ∧ ((VRSystem.Update testVRState { testUpdateRuntime with locateOk := false }).2.1 = none)
    ∧ (VRSystem.Update testVRState testUpdateRuntime).2.1
        = some ⟨OpenXRToRED testUpdateRuntime.locatedViews.1.pos,
                OpenXRQuatToRED testUpdateRuntime.locatedViews.1.ori⟩ :=
  ⟨(update_failure_modes testVRState { testUpdateRuntime with waitFrameOk := false }).2.1 rfl,
   (update_failure_modes testVRState { testUpdateRuntime with locateOk := false }).2.2.1 rfl,
   (update_failure_modes testVRState testUpdateRuntime).2.2.2 rfl rfl (by decide)
     rfl rfl rfl⟩

/-- C8: `SubmitFrame` called with a null texture, a null swapchain
handle for the requested eye, a not-ready session, or a non-running
session state returns with the state completely unchanged and performs
no acquire, no copy, no release and no end-frame call. -/
theorem submitFrame_guard_noop (s : VRState) (tex eye : Bool) (rt : SubmitRuntime)
    (h : tex = false
      ∨ (if eye then s.swapchainNonNull.1 else s.swapchainNonNull.2) = false
      ∨ s.sessionReady = false
      ∨ IsSessionRunning s.sessionState = false) :
    VRSystem.SubmitFrame s tex eye rt = (s, noSubmitEffects) := by
  unfold VRSystem.SubmitFrame
  rcases h with h | h | h | h <;> cases eye <;>
    dsimp only <;> split_ifs <;> simp_all

theorem submitFrame_guard_noop_witness :
    ((false : Bool) = false
      ∨ (if true then testVRState.swapchainNonNull.1
         else testVRState.swapchainNonNull.2) = false
      ∨ testVRState.sessionReady = false
      ∨ IsSessionRunning testVRState.sessionState = false)
    ∧ VRSystem.SubmitFrame testVRState false true testSubmitRuntime
        = (testVRState, noSubmitEffects) :=
  ⟨Or.inl rfl,
   submitFrame_guard_noop testVRState false true testSubmitRuntime (Or.inl rfl)⟩

/-- C10 (implicit): `Update` sets the frame-in-progress flag right after
a successful `xrBeginFrame` and before `xrLocateViews`, so when
view-locate fails the call returns no pose while the flag stays set and
the stored views keep their previous (stale) values; the flag is
cleared only by a right-eye `SubmitFrame` reaching `xrEndFrame`, which
then hands those stale views to the runtime. -/
theorem frameInProgress_survives_locate_failure
    (s : VRState) (rt : UpdateRuntime) (rtS : SubmitRuntime)
    (hnn : s.sessionNonNull = true) (hrdy : s.sessionReady = true)
    (hrun : IsSessionRunning (drainEvents rt.events s.sessionState) = true)
    (hw : rt.waitFrameOk = true) (hb : rt.beginFrameOk = true)
    (hl : rt.locateOk = false)
    (hsw : s.swapchainNonNull.2 = true)
    (ha : rtS.acquireOk = true) (hiw : rtS.imageWaitOk = true) :
    (VRSystem.Update s rt).2.1 = none
    ∧ (VRSystem.Update s rt).1.frameInProgress = true
    ∧ (VRSystem.Update s rt).1.views = s.views
    ∧ (VRSystem.SubmitFrame (VRSystem.Update s rt).1 true false rtS).2.endFrameCalls = 1
    ∧ (VRSystem.SubmitFrame (VRSystem.Update s rt).1 true false rtS).2.endFrameViews
        = some s.views
    ∧ (VRSystem.SubmitFrame (VRSystem.Update s rt).1 true false rtS).1.frameInProgress
        = false
    ∧ (∀ (s2 : VRState) (tex eye : Bool) (rt2 : SubmitRuntime),
        (VRSystem.SubmitFrame s2 tex eye rt2).1.frameInProgress ≠ s2.frameInProgress →
        eye = false ∧ (VRSystem.SubmitFrame s2 tex eye rt2).2.endFrameCalls = 1) := by
  have hup := update_locateFail_eq s rt hnn hrdy hrun hw hb hl
  set s1 : VRState :=
    { s with sessionState := drainEvents rt.events s.sessionState,
             frameState := rt.newFrameState,
             frameInProgress := true } with hs1
  have h1 : (VRSystem.Update s rt).1 = s1 := by rw [hup]
  have hR : VRSystem.SubmitFrame s1 true false rtS =
      ({ s1 with frameInProgress := false }, ⟨1, 1, 1, 1, some s1.views⟩) :=
    submit_right_inProgress_eq s1 rtS hrdy hrun hsw ha hiw rfl
  refine ⟨by rw [hup], by rw [h1], by rw [h1], ?_, ?_, ?_,
          submit_flag_change_requires⟩ <;> rw [h1, hR]

theorem frameInProgress_survives_locate_failure_witness :
    ((VRSystem.Update testVRState { testUpdateRuntime with locateOk := false }).2.1 = none)
    ∧ ((VRSystem.Update testVRState
         { testUpdateRuntime with locateOk := false }).1.frameInProgress = true)
    ∧ (VRSystem.SubmitFrame (VRSystem.Update testVRState
         { testUpdateRuntime with locateOk := false }).1 true false
         testSubmitRuntime).2.endFrameViews = some testVRState.views :=
  have h := frameInProgress_survives_locate_failure testVRState
    { testUpdateRuntime with locateOk := false } testSubmitRuntime
    rfl rfl (by decide) rfl rfl rfl rfl rfl rfl
  ⟨h.1, h.2.1, h.2.2.2.2.1⟩

/-- C6 counterexample: with the default configuration (VR enabled,
decoupled aiming enabled) and a VR sample whose right-hand pose is
valid, the merged right thumbstick does not follow the
magnitude-wins rule: native `sThumbRX = 26213` (0.8) against a VR
right-thumbstick whose post-deadzone magnitude is only 1/17 yields 0
(the aim-delta override), not the native 26213 the claim requires. -/
theorem inputMerge_decoupled_counterexample :
    ({} : VRConfig).vrEnabled = true
    ∧ ({} : VRConfig).decoupledAiming = true
    ∧ (Hook_XInputGetState {} {} 0 true { Gamepad := { sThumbRX := 26213 } } true
         { rightThumbX := 1/5, rightHand := { valid := true } }).2.1.Gamepad.sThumbRX = 0
    ∧ ¬ (|ApplyDeadzone (1/5)| > |((26213 : ℤ) : ℚ) / 32767|)
    ∧ ((0 : ℤ) ≠ 26213) := by
  refine ⟨rfl, rfl, ?_, ?_, by decide⟩
  · norm_num [Hook_XInputGetState, InputHook.decoupledAim, InputHook.standardAim,
      ApplyDeadzone, FloatToShort, FloatToByte, truncToInt, SmoothValue,
      VRControllerState.BUTTON_RIGHT_THUMB, min_def, max_def, abs_of_pos, abs_of_nonneg]
  · norm_num [ApplyDeadzone, abs_of_pos, abs_of_nonneg]

/-- C6 (amended): for the merged gamepad state on controller index 0
with VR enabled, the native call successful and a VR sample available,
VR buttons are OR'd into the native buttons; each trigger takes the
larger of the native byte and the converted VR value; each left
thumbstick axis takes the post-deadzone VR value converted to the
integer range exactly when its magnitude exceeds the native value's
magnitude, the native value being kept otherwise; the right thumbstick
axes obey the same rule whenever decoupled aiming is disabled or the
right-hand pose is invalid (with decoupled aiming active and a valid
right hand they are instead overridden by the smoothed aim delta).
The spec's two concrete examples hold: native 0.1 (3276) against
post-deadzone VR 0.6 merges to 0.6 (19660), and native 0.8 (26213)
against post-deadzone VR 0.2 keeps 26213. -/
theorem inputMerge_max_wins_amended
    (cfg : VRConfig) (st : InputStatics) (native : XINPUT_STATE) (vr : VRControllerState)
    (hen : cfg.vrEnabled = true) :
    (Hook_XInputGetState cfg st 0 true native true vr).2.1.Gamepad.wButtons
        = native.Gamepad.wButtons ||| vr.buttons
    ∧ (Hook_XInputGetState cfg st 0 true native true vr).2.1.Gamepad.bLeftTrigger
        = max native.Gamepad.bLeftTrigger (FloatToByte vr.leftTrigger)
    ∧ (Hook_XInputGetState cfg st 0 true native true vr).2.1.Gamepad.bRightTrigger
        = max native.Gamepad.bRightTrigger (FloatToByte vr.rightTrigger)
    ∧ (Hook_XInputGetState cfg st 0 true native true vr).2.1.Gamepad.sThumbLX
        = (if |ApplyDeadzone vr.leftThumbX| > |(native.Gamepad.sThumbLX : ℚ) / 32767|
           then FloatToShort (ApplyDeadzone vr.leftThumbX) else native.Gamepad.sThumbLX)
    ∧ (Hook_XInputGetState cfg st 0 true native true vr).2.1.Gamepad.sThumbLY
        = (if |ApplyDeadzone vr.leftThumbY| > |(native.Gamepad.sThumbLY : ℚ) / 32767|
           then FloatToShort (ApplyDeadzone vr.leftThumbY) else native.Gamepad.sThumbLY)
    ∧ ((cfg.decoupledAiming && vr.rightHand.valid) = false →
        (Hook_XInputGetState cfg st 0 true native true vr).2.1.Gamepad.sThumbRX
          = (if |ApplyDeadzone vr.rightThumbX| > |(native.Gamepad.sThumbRX : ℚ) / 32767|
             then FloatToShort (ApplyDeadzone vr.rightThumbX) else native.Gamepad.sThumbRX)
        ∧ (Hook_XInputGetState cfg st 0 true native true vr).2.1.Gamepad.sThumbRY
          = (if |ApplyDeadzone vr.rightThumbY| > |(native.Gamepad.sThumbRY : ℚ) / 32767|
             then FloatToShort (ApplyDeadzone vr.rightThumbY) else native.Gamepad.sThumbRY))
    ∧ (Hook_XInputGetState {} {} 0 true { Gamepad := { sThumbLX := 3276 } } true
         { leftThumbX := 33/50 }).2.1.Gamepad.sThumbLX = 19660
    ∧ (Hook_XInputGetState {} {} 0 true { Gamepad := { sThumbLX := 26213 } } true
         { leftThumbX := 8/25 }).2.1.Gamepad.sThumbLX = 26213 := by
  rw [Hook_XInputGetState_merge_eq cfg st native vr hen]
  by_cases hdec : (cfg.decoupledAiming && vr.rightHand.valid) = true
  case pos =>
    rw [if_pos hdec]
    have hd := InputHook.decoupledAim_preserves cfg st vr (mergedLeftHalf native vr)
    have hm := mergedLeftHalf_spec native vr
    refine ⟨?_, ?_, ?_, ?_, ?_, ?_, ?_, ?_⟩
    · rw [hd.1, hm.1]
    · rw [hd.2.1, hm.2.1]
    · rw [hd.2.2.1, hm.2.2.1]
    · rw [hd.2.2.2.1, hm.2.2.2.1]
    · rw [hd.2.2.2.2, hm.2.2.2.2.1]
    · intro hc; exact absurd hdec (by simp [hc])
    · norm_num [Hook_XInputGetState, InputHook.decoupledAim, InputHook.standardAim,
        ApplyDeadzone, FloatToShort, FloatToByte, truncToInt, SmoothValue,
        VRControllerState.BUTTON_RIGHT_THUMB, min_def, max_def, abs_of_pos, abs_of_nonneg]
    · norm_num [Hook_XInputGetState, InputHook.decoupledAim, InputHook.standardAim,
        ApplyDeadzone, FloatToShort, FloatToByte, truncToInt, SmoothValue,
        VRControllerState.BUTTON_RIGHT_THUMB, min_def, max_def, abs_of_pos, abs_of_nonneg]
  case neg =>
    rw [if_neg hdec]
    have hs := InputHook.standardAim_eq st vr (mergedLeftHalf native vr)
    have hm := mergedLeftHalf_spec native vr
    refine ⟨?_, ?_, ?_, ?_, ?_, ?_, ?_, ?_⟩
    · rw [hs.1, hm.1]
    · rw [hs.2.1, hm.2.1]
    · rw [hs.2.2.1, hm.2.2.1]
    · rw [hs.2.2.2.1, hm.2.2.2.1]
    · rw [hs.2.2.2.2.1, hm.2.2.2.2.1]
    · intro hc
      constructor
      · rw [hs.2.2.2.2.2.1, hm.2.2.2.2.2.1]
      · rw [hs.2.2.2.2.2.2, hm.2.2.2.2.2.2]
    · norm_num [Hook_XInputGetState, InputHook.decoupledAim, InputHook.standardAim,
        ApplyDeadzone, FloatToShort, FloatToByte, truncToInt, SmoothValue,
        VRControllerState.BUTTON_RIGHT_THUMB, min_def, max_def, abs_of_pos, abs_of_nonneg]
    · norm_num [Hook_XInputGetState, InputHook.decoupledAim, InputHook.standardAim,
        ApplyDeadzone, FloatToShort, FloatToByte, truncToInt, SmoothValue,
        VRControllerState.BUTTON_RIGHT_THUMB, min_def, max_def, abs_of_pos, abs_of_nonneg]

theorem inputMerge_max_wins_amended_witness :
    ({} : VRConfig).vrEnabled = true
    ∧ (Hook_XInputGetState {} {} 0 true ({ Gamepad := { sThumbLX := 3276 } } : XINPUT_STATE)
         true ({ leftThumbX := 33/50, buttons := 5 } : VRControllerState)).2.1.Gamepad.wButtons
        = ({ Gamepad := { sThumbLX := 3276 } } : XINPUT_STATE).Gamepad.wButtons
            ||| ({ leftThumbX := 33/50, buttons := 5 } : VRControllerState).buttons :=
  ⟨rfl,
   (inputMerge_max_wins_amended {} {} { Gamepad := { sThumbLX := 3276 } }
      { leftThumbX := 33/50, buttons := 5 } rfl).1⟩
